import Mathlib

/-!
Verification of the dd-pg-web skin-preview service (`src/main.rs`).

The source is shallowly embedded: machine floats become an explicit
variant type `F` over exact rationals (the NaN/Infinity handling in the
code is the part that matters for the claims, never float rounding),
`i32` color integers become `Int` with the two's-complement bit pattern
made explicit, and the stateful pieces (the tokio `Mutex<Option<Client>>`
that serializes renders, the `parking_lot::Mutex<Instant>` rate-limit
gate, the single-fire screenshot callback) become explicit state passing
or a step relation.
-/

namespace DdPgWeb

/-- An f32/f64 value as the program observes it: NaN, an infinity, or a
finite value (modelled exactly as a rational). -/
inductive F where
  | nan : F
  | inf : F
  | neginf : F
  | fin : ℚ → F
deriving DecidableEq

/-- `if v.is_nan() || v.is_infinite() { v = sub }` — the substitution the
code performs on every float parameter before clamping. -/
def F.sanitize (v : F) (sub : ℚ) : ℚ :=
  match v with
  | .fin q => q
  | _ => sub

/-- Rust `f.clamp(lo, hi)` on finite values. -/
def clampQ (lo hi x : ℚ) : ℚ := max lo (min hi x)

theorem clampQ_mem (lo hi x : ℚ) (h : lo ≤ hi) :
    lo ≤ clampQ lo hi x ∧ clampQ lo hi x ≤ hi := by
  unfold clampQ
  constructor
  · exact le_max_left _ _
  · exact max_le h (min_le_left _ _)

/-- Zoom normalization from `Client::render`:
`params.zoom.unwrap_or(0.5)`, NaN/Infinite replaced by `1.0`, then
`clamp(0.001, 20.0)`. -/
def normZoom (zoom : Option F) : ℚ :=
  clampQ (1/1000) 20 ((zoom.getD (.fin (1/2))).sanitize 1)

/-- C7: the normalized zoom is 0.5 when absent, 1.0 for NaN/±Inf input,
and always lies in [0.001, 20.0] (finiteness is structural: the result is
an exact rational, NaN/Inf having been substituted away before the clamp). -/
theorem normZoom_spec :
    normZoom none = 1/2 ∧
    normZoom (some .nan) = 1 ∧
    normZoom (some .inf) = 1 ∧
    normZoom (some .neginf) = 1 ∧
    ∀ z : Option F, 1/1000 ≤ normZoom z ∧ normZoom z ≤ 20 := by
  refine ⟨by norm_num [normZoom, clampQ, F.sanitize],
          by norm_num [normZoom, clampQ, F.sanitize],
          by norm_num [normZoom, clampQ, F.sanitize],
          by norm_num [normZoom, clampQ, F.sanitize], ?_⟩
  intro z
  exact clampQ_mem _ _ _ (by norm_num)

/-! Recolor engine (`Client::render`, lines 360–398). The packed legacy
color is an `i32`; `(c >> k) & 0xFF` (arithmetic shift, then mask) equals
the byte at position `k` of the 32-bit two's-complement pattern, which we
extract from `(c % 2^32).toNat`. -/

/-- Byte `k` (k = 0, 8, 16, 24) of the 32-bit two's-complement pattern of
an `i32`, i.e. Rust `(c >> k) & 0xFF`. -/
def byteAt (c : Int) (k : ℕ) : ℕ := (c % (2 ^ 32 : Int)).toNat / 2 ^ k % 256

theorem byteAt_lt (c : Int) (k : ℕ) : byteAt c k < 256 :=
  Nat.mod_lt _ (by norm_num)

theorem byteAt_le (c : Int) (k : ℕ) : (byteAt c k : ℚ) ≤ 255 := by
  have h := byteAt_lt c k
  exact_mod_cast Nat.lt_succ_iff.mp h

/-- Channel `_a = ((c >> 24) & 0xFF) as f64 / 255.0` — decoded by the
code but never used downstream. -/
def alphaChannel (c : Int) : ℚ := (byteAt c 24 : ℚ) / 255

/-- Channel `h = ((c >> 16) & 0xFF) as f64 / 255.0`. -/
def hueChannel (c : Int) : ℚ := (byteAt c 16 : ℚ) / 255

/-- Channel `s = ((c >> 8) & 0xFF) as f64 / 255.0`. -/
def satChannel (c : Int) : ℚ := (byteAt c 8 : ℚ) / 255

/-- Channel `l = (c & 0xFF) as f64 / 255.0`. -/
def lumChannel (c : Int) : ℚ := (byteAt c 0 : ℚ) / 255

/-- An HSL triple as handed to the palette crate (hue in degrees). -/
structure Hsl where
  hue : ℚ
  saturation : ℚ
  lightness : ℚ
deriving DecidableEq

/-- HSL value built by the recolor code: `Hsl::new_const((h * 360.0).into(), s, l)`
followed by the in-place remap `hsl.lightness = darkest + hsl.lightness * (1.0 - darkest)`
with `darkest = 0.5`. -/
def recolorHsl (c : Int) : Hsl :=
  { hue := hueChannel c * 360
    saturation := satChannel c
    lightness := 1/2 + lumChannel c * (1 - 1/2) }

/-- One of the two color slots of `TeeRenderInfo`: either the sentinel
`Original` or a colorable value. The palette crate's HSL→linear-RGB
conversion is external; we carry the HSL fed to it together with the
alpha the code writes into `ColorRgba` (`a: 1.0`). -/
inductive TeeRenderSkinColor where
  | original : TeeRenderSkinColor
  | colorable : Hsl → ℚ → TeeRenderSkinColor
deriving DecidableEq

/-- Recolored value for one slot in custom-color mode: the remapped HSL
plus the constant output alpha `1.0`. -/
def recolorColor (c : Int) : TeeRenderSkinColor :=
  .colorable (recolorHsl c) 1

/-- Alpha component of a skin-color slot, when it has one. -/
def TeeRenderSkinColor.alphaOf : TeeRenderSkinColor → Option ℚ
  | .original => none
  | .colorable _ a => some a

/-- Circular reduction of a hue in degrees into [0, 360): the palette
crate treats `RgbHue` circularly (360° is identified with 0°) when it
converts HSL to RGB. -/
def wrapHue (q : ℚ) : ℚ := q - 360 * ⌊q / 360⌋

theorem wrapHue_mem (q : ℚ) : 0 ≤ wrapHue q ∧ wrapHue q < 360 := by
  unfold wrapHue
  constructor
  · have h := Int.floor_le (q / 360)
    have h360 : (0:ℚ) < 360 := by norm_num
    nlinarith [(mul_le_mul_of_nonneg_left h (le_of_lt h360))]
  · have h := Int.lt_floor_add_one (q / 360)
    nlinarith

/-- C5 (counterexample): for the packed color 0x00FF0000 (hue byte 255)
the scaled hue computed by the code is exactly 360, which does not lie in
the half-open range [0, 360). -/
theorem recolor_hue_byte255_not_lt_360 :
    (recolorHsl 16711680).hue = 360 ∧ ¬ (recolorHsl 16711680).hue < 360 := by
  have hb : byteAt 16711680 16 = 255 := by decide
  constructor
  · show hueChannel 16711680 * 360 = 360
    unfold hueChannel
    rw [hb]
    norm_num
  · show ¬ hueChannel 16711680 * 360 < 360
    unfold hueChannel
    rw [hb]
    norm_num

/-- C5 (amended): the recolor engine decomposes the packed integer into
four 8-bit channels in order (alpha[unused], hue, saturation, lightness),
each divided by 255 into [0, 1]; the hue scaled to degrees lies in the
closed range [0, 360], hitting 360 exactly when the hue byte is 255, and
its circular reduction — the hue as the palette conversion interprets it —
always lies in [0, 360). -/
theorem recolor_channel_decomposition (c : Int) :
    0 ≤ alphaChannel c ∧ alphaChannel c ≤ 1 ∧
    0 ≤ hueChannel c ∧ hueChannel c ≤ 1 ∧
    0 ≤ satChannel c ∧ satChannel c ≤ 1 ∧
    0 ≤ lumChannel c ∧ lumChannel c ≤ 1 ∧
    (recolorHsl c).hue = hueChannel c * 360 ∧
    0 ≤ (recolorHsl c).hue ∧ (recolorHsl c).hue ≤ 360 ∧
    ((recolorHsl c).hue = 360 ↔ byteAt c 16 = 255) ∧
    0 ≤ wrapHue (recolorHsl c).hue ∧ wrapHue (recolorHsl c).hue < 360 := by
  have hch : ∀ k, 0 ≤ (byteAt c k : ℚ) / 255 ∧ (byteAt c k : ℚ) / 255 ≤ 1 := by
    intro k
    constructor
    · positivity
    · rw [div_le_one (by norm_num)]
      exact byteAt_le c k
  have ha0 : 0 ≤ alphaChannel c := (hch 24).1
  have ha1 : alphaChannel c ≤ 1 := (hch 24).2
  have hh0 : 0 ≤ hueChannel c := (hch 16).1
  have hh1 : hueChannel c ≤ 1 := (hch 16).2
  have hs0 : 0 ≤ satChannel c := (hch 8).1
  have hs1 : satChannel c ≤ 1 := (hch 8).2
  have hl0 : 0 ≤ lumChannel c := (hch 0).1
  have hl1 : lumChannel c ≤ 1 := (hch 0).2
  refine ⟨ha0, ha1, hh0, hh1, hs0, hs1, hl0, hl1, rfl, ?_, ?_, ?_,
    (wrapHue_mem _).1, (wrapHue_mem _).2⟩
  · show 0 ≤ hueChannel c * 360
    nlinarith
  · show hueChannel c * 360 ≤ 360
    nlinarith
  · show hueChannel c * 360 = 360 ↔ byteAt c 16 = 255
    unfold hueChannel
    rw [div_mul_eq_mul_div, div_eq_iff (by norm_num : (255:ℚ) ≠ 0)]
    constructor
    · intro h
      have h2 : (byteAt c 16 : ℚ) = 255 := by linarith
      exact_mod_cast h2
    · intro h
      rw [h]
      norm_num

/-- C6: the remapped lightness used for recoloring equals
`0.5 + lightness * 0.5` for `lightness = (packed & 0xFF) / 255`, hence it
always lies in [0.5, 1]; and the output alpha of a recolored slot is the
constant 1, whatever the input alpha byte was. -/
theorem recolor_lightness_floor (c : Int) :
    (recolorHsl c).lightness = 1/2 + lumChannel c * (1/2) ∧
    1/2 ≤ (recolorHsl c).lightness ∧ (recolorHsl c).lightness ≤ 1 ∧
    (recolorColor c).alphaOf = some 1 := by
  have hl0 : 0 ≤ lumChannel c := by unfold lumChannel; positivity
  have hl1 : lumChannel c ≤ 1 := by
    unfold lumChannel
    rw [div_le_one (by norm_num)]
    exact byteAt_le c 0
  refine ⟨by unfold recolorHsl; norm_num, ?_, ?_, rfl⟩
  · unfold recolorHsl
    simp only
    nlinarith
  · unfold recolorHsl
    simp only
    nlinarith

/-! Custom-color mode (`Client::render`, lines 249–252 and 360–398). -/

/-- Mode flag from line 249: `let custom_color = params.body.is_some();`. -/
def custom_color (body : Option Int) : Bool := body.isSome

/-- Body color slot: `Original` unless custom-color mode is on, else the
recolored `params.body.unwrap_or(0)`. -/
def renderColorBody (body : Option Int) : TeeRenderSkinColor :=
  if custom_color body then recolorColor (body.getD 0) else .original

/-- Feet color slot: gated by the same `custom_color` flag (which looks
only at `body`), recoloring `params.feet.unwrap_or(0)` when on. -/
def renderColorFeet (body feet : Option Int) : TeeRenderSkinColor :=
  if custom_color body then recolorColor (feet.getD 0) else .original

/-- C3 (counterexample): supplying only a feet color override does not
enable custom-color mode — with `body` absent and `feet = 5` the mode
flag is off and both slots stay `Original`, contradicting the claimed
feet-to-body inheritance of the mode flag. -/
theorem feet_only_does_not_enable_custom_color :
    custom_color none = false ∧
    renderColorBody none = .original ∧
    renderColorFeet none (some 5) = .original := by
  refine ⟨rfl, rfl, rfl⟩

/-- C3 (amended): custom-color mode is enabled if and only if a body
color override was supplied; the feet slot inherits that flag from the
body side only (a feet-only override is ignored and both slots stay
`Original`); when the mode is on, the feet packed color defaults to 0
if its own override is absent. -/
theorem custom_color_mode_spec (body feet : Option Int) :
    (renderColorBody body = .original ↔ body = none) ∧
    (renderColorFeet body feet = .original ↔ body = none) ∧
    (body.isSome = true → feet = none →
      renderColorFeet body feet = recolorColor 0) ∧
    (∀ pb : Int, body = some pb → renderColorBody body = recolorColor pb) := by
  refine ⟨?_, ?_, ?_, ?_⟩
  · cases body with
    | none => simp [renderColorBody, custom_color]
    | some pb => simp [renderColorBody, custom_color, recolorColor]
  · cases body with
    | none => simp [renderColorFeet, custom_color]
    | some pb => simp [renderColorFeet, custom_color, recolorColor]
  · intro hb hf
    cases body with
    | none => simp at hb
    | some pb => simp [renderColorFeet, custom_color, hf]
  · intro pb hb
    subst hb
    simp [renderColorBody, custom_color]

/-- Witness for `custom_color_mode_spec` at `body = some 3`, `feet = none`. -/
theorem custom_color_mode_spec_witness :
    renderColorFeet (some 3) none = recolorColor 0 ∧
    renderColorBody (some 3) = recolorColor 3 :=
  ⟨(custom_color_mode_spec (some 3) none).2.2.1 rfl rfl,
   (custom_color_mode_spec (some 3) none).2.2.2 3 rfl⟩

/-! Eyes / weapon / emoticon parsing (`Client::render`, lines 273–304). -/

/-- Eye expression variants (`TeeEye` from the game interface). -/
inductive TeeEye where
  | normal | angry | pain | happy | surprised | blink
deriving DecidableEq

/-- Weapon variants (`WeaponType` from the game interface). -/
inductive WeaponType where
  | hammer | gun | shotgun | grenade | laser
deriving DecidableEq

/-- Lowercasing as used by the string matches (`to_lowercase()`),
character-wise over the string's characters. -/
def strToLower (s : String) : String := ⟨s.data.map Char.toLower⟩

/-- Eyes parsing: `params.eyes.unwrap_or("normal").to_lowercase()` matched
against the fixed names, any other string falling back to `Normal`. -/
def parseEyes (eyes : Option String) : TeeEye :=
  match strToLower (eyes.getD "normal") with
  | "normal" => .normal
  | "angry" => .angry
  | "pain" => .pain
  | "happy" => .happy
  | "surprised" => .surprised
  | "blink" => .blink
  | _ => .normal

/-- Weapon parsing: `params.weapon.map(...)` — note the catch-all arm of
the inner match yields `WeaponType::Hammer`, so any present string maps
to some weapon. -/
def parseWeapon (weapon : Option String) : Option WeaponType :=
  weapon.map fun w =>
    match strToLower w with
    | "gun" => .gun
    | "shotgun" => .shotgun
    | "grenade" => .grenade
    | "laser" => .laser
    | _ => .hammer

/-- Emoticon parsing: `params.emoticon.and_then(|e| EmoticonType::iter().find(...))`,
a case-insensitive search through the variant names of the external
`EmoticonType` enumeration (kept abstract as the list `names`). -/
def parseEmoticon (names : List String) (emoticon : Option String) : Option String :=
  emoticon.bind fun e => names.find? fun n => strToLower n == strToLower e

/-- C4 (counterexample): an unrecognized weapon string does not yield
"no weapon" — the catch-all arm turns it into `Some(Hammer)`. -/
theorem unrecognized_weapon_is_some_hammer :
    parseWeapon (some "plasma") = some .hammer ∧
    parseWeapon (some "plasma") ≠ none := by
  refine ⟨by decide, by decide⟩

/-- C4 (amended): eyes are matched case-insensitively (via lowercasing)
against the fixed enumeration and unrecognized or absent input falls back
to `Normal`; an absent weapon yields no weapon but an unrecognized weapon
string yields the `Hammer` variant; an absent emoticon yields no emoticon
and a string matching no variant name case-insensitively yields none. -/
theorem enum_parsing_spec (names : List String) (s : String) :
    parseEyes none = .normal ∧
    (strToLower s ∉ ["normal", "angry", "pain", "happy", "surprised", "blink"] →
      parseEyes (some s) = .normal) ∧
    parseWeapon none = none ∧
    (strToLower s ∉ ["gun", "shotgun", "grenade", "laser"] →
      parseWeapon (some s) = some .hammer) ∧
    parseEmoticon names none = none ∧
    ((∀ n ∈ names, strToLower n ≠ strToLower s) →
      parseEmoticon names (some s) = none) := by
  refine ⟨by decide, ?_, rfl, ?_, rfl, ?_⟩
  · intro hs
    simp only [List.mem_cons, List.not_mem_nil, or_false] at hs
    push_neg at hs
    obtain ⟨h1, h2, h3, h4, h5, h6⟩ := hs
    show (match strToLower s with
      | "normal" => TeeEye.normal
      | "angry" => TeeEye.angry
      | "pain" => TeeEye.pain
      | "happy" => TeeEye.happy
      | "surprised" => TeeEye.surprised
      | "blink" => TeeEye.blink
      | _ => TeeEye.normal) = TeeEye.normal
    split
    all_goals first
      | rfl
      | (rename_i heq; exact absurd heq (by assumption))
  · intro hs
    simp only [List.mem_cons, List.not_mem_nil, or_false] at hs
    push_neg at hs
    obtain ⟨h1, h2, h3, h4⟩ := hs
    show some (match strToLower s with
      | "gun" => WeaponType.gun
      | "shotgun" => WeaponType.shotgun
      | "grenade" => WeaponType.grenade
      | "laser" => WeaponType.laser
      | _ => WeaponType.hammer) = some WeaponType.hammer
    congr 1
    split
    all_goals first
      | rfl
      | (rename_i heq; exact absurd heq (by assumption))
  · intro hmatch
    show (names.find? fun n => strToLower n == strToLower s) = none
    rw [List.find?_eq_none]
    intro n hn
    simp only [beq_iff_eq]
    exact hmatch n hn

/-- Witness for `enum_parsing_spec` at `names = ["hearts"]`, `s = "xyz"`. -/
theorem enum_parsing_spec_witness :
    parseEyes (some "xyz") = .normal ∧
    parseWeapon (some "xyz") = some .hammer ∧
    parseEmoticon ["hearts"] (some "xyz") = none :=
  ⟨(enum_parsing_spec ["hearts"] "xyz").2.1 (by decide),
   (enum_parsing_spec ["hearts"] "xyz").2.2.2.1 (by decide),
   (enum_parsing_spec ["hearts"] "xyz").2.2.2.2.2 (by decide)⟩

/-! Rate-limited enrichment gate (`generate_preview`, lines 941–981, and
the `PLAYERS` state, lines 106–111). Time is a discrete millisecond
timeline of integers; the `parking_lot::Mutex` around the `Instant`
serializes the check-and-update, so one gate invocation is one atomic
step here, and the lock scope in the code ends before the outbound
`HTTP.get(...).send().await` is reached. -/

/-- Outcome of the front half of `generate_preview`: either the early
`"Rate limited"` response, or the request goes on to render, having
attempted the enrichment fetch or not. -/
inductive PreviewGateOutcome where
  | rateLimited : PreviewGateOutcome
  | rendered : Bool → PreviewGateOutcome
deriving DecidableEq

/-- Initial `PLAYERS` timestamp: `Instant::now() - Duration::from_secs(60 * 60 * 60)`
with process start taken as time 0 (milliseconds). -/
def playersInit : Int := -(216000000 : Int)

/-- Enrichment gate of `generate_preview`: when `use_player_api` is
`Some(true)`, atomically test `elapsed > 500 ms` and set the shared
timestamp to `now` on success, else return the rate-limited response;
the fetch is then attempted exactly when the gate passed and a player
name is present. Returns the outcome and the new shared timestamp. -/
def previewGate (useApi : Option Bool) (hasName : Bool) (st now : Int) :
    PreviewGateOutcome × Int :=
  if useApi.getD false then
    if 500 < now - st then (.rendered hasName, now) else (.rateLimited, st)
  else (.rendered false, st)

/-- C2: starting from the process-initial `PLAYERS` timestamp, of two
enrichment attempts issued within 500 ms of each other (serialized by the
lock at times `t1 ≤ t2`) exactly one proceeds to the network call: the
first passes the test-and-set and fetches, the second gets the
rate-limited outcome, performs no fetch, and leaves the shared timestamp
unchanged at `t1`; and in general the gate's timestamp changes only when
the elapsed time exceeds 500 ms. -/
theorem rate_limit_window_spec (t1 t2 : Int) (h0 : 0 ≤ t1) (h12 : t1 ≤ t2)
    (hwin : t2 - t1 ≤ 500) :
    previewGate (some true) true playersInit t1 = (.rendered true, t1) ∧
    previewGate (some true) true t1 t2 = (.rateLimited, t1) ∧
    (∀ s now : Int, (previewGate (some true) true s now).2 ≠ s →
      500 < now - s) := by
  refine ⟨?_, ?_, ?_⟩
  · unfold previewGate playersInit
    simp only [Option.getD_some, if_true]
    rw [if_pos (by linarith)]
  · unfold previewGate
    simp only [Option.getD_some, if_true]
    rw [if_neg (by linarith)]
  · intro s now h
    unfold previewGate at h
    simp only [Option.getD_some, if_true] at h
    by_contra hlt
    rw [if_neg hlt] at h
    exact h rfl

/-- Witness for `rate_limit_window_spec` at `t1 = 0`, `t2 = 300`. -/
theorem rate_limit_window_spec_witness :
    previewGate (some true) true playersInit 0 = (.rendered true, 0) ∧
    previewGate (some true) true 0 300 = (.rateLimited, 0) :=
  ⟨(rate_limit_window_spec 0 300 (by norm_num) (by norm_num) (by norm_num)).1,
   (rate_limit_window_spec 0 300 (by norm_num) (by norm_num) (by norm_num)).2.1⟩

/-- C9: with `use_player_api = Some(true)` the test-and-set runs before
the player name is even examined — a request with no player name still
consumes the debounce window (the timestamp advances to `now` and no
fetch is attempted) when the window has elapsed, and otherwise receives
the rate-limited response. -/
theorem gate_runs_before_name_check (st now : Int) :
    (500 < now - st →
      previewGate (some true) false st now = (.rendered false, now)) ∧
    (¬ 500 < now - st →
      previewGate (some true) false st now = (.rateLimited, st)) := by
  constructor
  · intro h
    unfold previewGate
    simp only [Option.getD_some, if_true]
    rw [if_pos h]
  · intro h
    unfold previewGate
    simp only [Option.getD_some, if_true]
    rw [if_neg h]

/-- Witness for `gate_runs_before_name_check` at `st = 0`, `now = 1000`. -/
theorem gate_runs_before_name_check_witness :
    previewGate (some true) false 0 1000 = (.rendered false, 1000) :=
  (gate_runs_before_name_check 0 1000).1 (by norm_num)

/-! Screenshot result delivery (`Screenshot::on_screenshot`,
lines 514–531). The callback owns `RefCell<Option<Sender>>`; it `take()`s
the sender, so a second invocation finds `None`; and the send's
`Result` is discarded (`let _ = sender.send(png)`), so a dropped
receiver cannot propagate anything. -/

/-- State of the `Screenshot` callback: the oneshot sender while still
unfired. -/
structure Screenshot where
  sender : Option Unit
deriving DecidableEq

/-- Sending on the oneshot channel: `Ok` if the receiver is still alive,
`Err` (the rejected value) if it was dropped. -/
def oneshotSend (receiverAlive : Bool) : Except Unit Unit :=
  if receiverAlive then .ok () else .error ()

/-- One invocation of `on_screenshot`: take the sender if present and
perform the send, discarding its `Result`; report how many sends were
performed (0 or 1). -/
def Screenshot.on_screenshot (s : Screenshot) (receiverAlive : Bool) :
    Screenshot × ℕ :=
  match s.sender with
  | some _ =>
    let _ := oneshotSend receiverAlive
    (⟨none⟩, 1)
  | none => (s, 0)

/-- Repeated invocations of the callback, counting the sends performed. -/
def runScreenshotCbs (s : Screenshot) (alives : List Bool) : Screenshot × ℕ :=
  match alives with
  | [] => (s, 0)
  | a :: rest =>
    let r := s.on_screenshot a
    let r2 := runScreenshotCbs r.1 rest
    (r2.1, r.2 + r2.2)

theorem runScreenshotCbs_spent (alives : List Bool) :
    runScreenshotCbs ⟨none⟩ alives = (⟨none⟩, 0) := by
  induction alives with
  | nil => rfl
  | cons a rest ih =>
    simp only [runScreenshotCbs, Screenshot.on_screenshot, ih]

/-- C8: starting from a fresh screenshot callback holding the job's
sender, any sequence of invocations performs exactly `min 1 n` sends —
the channel is fulfilled at most once, and exactly once as soon as the
callback fires at all — and the callback's behaviour is identical whether
or not the receiving end is still alive (the send failure is discarded,
so an abandoned caller cannot crash the executor). -/
theorem screenshot_delivers_once (alives : List Bool) :
    (runScreenshotCbs ⟨some ()⟩ alives).2 = min 1 alives.length ∧
    (∀ s : Screenshot, ∀ a : Bool,
      s.on_screenshot a = s.on_screenshot true) := by
  constructor
  · cases alives with
    | nil => rfl
    | cons a rest =>
      simp only [runScreenshotCbs, Screenshot.on_screenshot,
        runScreenshotCbs_spent, List.length_cons]
      omega
  · intro s a
    cases hs : s.sender with
    | none => simp [Screenshot.on_screenshot, hs]
    | some u => simp [Screenshot.on_screenshot, hs]

/-! Full parameter normalization (`Client::render`, lines 209–307) and
the map actually drawn (lines 309–327 against the `client_map` loaded in
`Client::new`, lines 656–678). -/

/-- Query parameters of the endpoint (`RenderParams`), floats as `F`. -/
structure RenderParamsM where
  skin_name : String
  player_name : Option String
  zoom : Option F
  x : Option F
  y : Option F
  body : Option Int
  feet : Option Int
  dir_x : Option F
  dir_y : Option F
  eyes : Option String
  weapon : Option String
  emoticon : Option String
  used_air_jump : Option Bool
  in_air : Option Bool
  hook_x : Option F
  hook_y : Option F
  time : Option ℕ
  map_name : Option String
  use_player_api : Option Bool
deriving DecidableEq

/-- Camera coordinate normalization: default, NaN/Infinite → 0.0, then
`clamp(0.0, 300000.0)`. -/
def normCoord (v : Option F) (dflt : ℚ) : ℚ :=
  clampQ 0 300000 ((v.getD (.fin dflt)).sanitize 0)

/-- Cursor direction normalization: defaults (1.0, 0.0), NaN/Infinite →
0.0, clamp each to [-1, 1], and if both magnitudes are below 0.001 force
`dir_x = 1.0`. The unit-length normalization `normalize(&vec2::new(..))`
is the external math library and happens after this. -/
def normDir (dx dy : Option F) : ℚ × ℚ :=
  let dx' := clampQ (-1) 1 ((dx.getD (.fin 1)).sanitize 0)
  let dy' := clampQ (-1) 1 ((dy.getD (.fin 0)).sanitize 0)
  if |dx'| < 1/1000 ∧ |dy'| < 1/1000 then (1, dy') else (dx', dy')

/-- Hook offset: rendered only when both coordinates are present, each
NaN/Infinite → 0.0 then clamped to [-10000, 10000]. -/
def normHook (hx hy : Option F) : Option (ℚ × ℚ) :=
  match hx, hy with
  | some a, some b =>
    some (clampQ (-10000) 10000 (a.sanitize 0), clampQ (-10000) 10000 (b.sanitize 0))
  | _, _ => none

/-- Animation time: `params.time.unwrap_or_default().clamp(0, 31536000000)`
milliseconds (at most one simulated year). -/
def normTime (t : Option ℕ) : ℕ := min (t.getD 0) 31536000000

/-- Everything the renderer is driven with for one job, after
normalization — including which map is drawn. -/
structure Descriptor where
  map : String
  x : ℚ
  y : ℚ
  zoom : ℚ
  dir : ℚ × ℚ
  hook : Option (ℚ × ℚ)
  eyes : TeeEye
  weapon : Option WeaponType
  emoticon : Option String
  color_body : TeeRenderSkinColor
  color_feet : TeeRenderSkinColor
  time_ms : ℕ
  in_air : Bool
  got_air_jump : Bool
  skin : String
  nameplate : Option String
  nameplate_zoom : ℚ
deriving DecidableEq

/-- The renderer state that matters here: the map loaded once at startup.
`Client::new` reads `map/maps/ctf1.twmap` from disk and builds
`client_map` from those bytes, unconditionally. -/
structure Client where
  client_map : String
deriving DecidableEq

/-- Construction of the client (`Client::new`): the one map ever loaded
is ctf1. -/
def Client.new : Client := { client_map := "map/maps/ctf1.twmap" }

/-- Normalization and render-target selection of `Client::render`
(lines 209–327): `map_name` picks only the default camera coordinates
(ctf1 → (173.12, 688.96), anything else → (1358.08, 24240.96)); the map
drawn is `self.client_map`, loaded at startup. `names` is the variant
name list of the external emoticon enumeration. -/
def Client.render (c : Client) (names : List String) (p : RenderParamsM) :
    Descriptor :=
  let map_name := p.map_name.getD "ctf1"
  let is_ctf1 := map_name = "ctf1"
  let default_x : ℚ := if is_ctf1 then 17312/100 else 135808/100
  let default_y : ℚ := if is_ctf1 then 68896/100 else 2424096/100
  let zoom := normZoom p.zoom
  { map := c.client_map
    x := normCoord p.x default_x
    y := normCoord p.y default_y
    zoom := zoom
    dir := normDir p.dir_x p.dir_y
    hook := normHook p.hook_x p.hook_y
    eyes := parseEyes p.eyes
    weapon := parseWeapon p.weapon
    emoticon := parseEmoticon names p.emoticon
    color_body := renderColorBody p.body
    color_feet := renderColorFeet p.body p.feet
    time_ms := normTime p.time
    in_air := p.in_air.getD false
    got_air_jump := ! p.used_air_jump.getD false
    skin := p.skin_name
    nameplate := p.player_name
    nameplate_zoom := max (3/10) zoom }

/-- C10: the rendered map is always the ctf1 map loaded at startup,
whatever `map_name` says; and when both camera coordinates are supplied,
`map_name` has no influence at all on the render — it only selects the
default camera coordinates. -/
theorem map_name_only_picks_defaults (names : List String) (p : RenderParamsM)
    (m₁ m₂ : Option String) (hx : p.x.isSome = true) (hy : p.y.isSome = true) :
    (Client.render Client.new names p).map = "map/maps/ctf1.twmap" ∧
    Client.render Client.new names { p with map_name := m₁ } =
      Client.render Client.new names { p with map_name := m₂ } := by
  constructor
  · rfl
  · obtain ⟨a, ha⟩ := Option.isSome_iff_exists.mp hx
    obtain ⟨b, hb⟩ := Option.isSome_iff_exists.mp hy
    unfold Client.render
    simp only [ha, hb, Option.getD_some, normCoord]

/-- Witness for `map_name_only_picks_defaults`: camera supplied, map
names "ctf1" versus "dm1". -/
theorem map_name_only_picks_defaults_witness :
    (Client.render Client.new []
      { skin_name := "default", player_name := none, zoom := none,
        x := some (.fin 10), y := some (.fin 20), body := none, feet := none,
        dir_x := none, dir_y := none, eyes := none, weapon := none,
        emoticon := none, used_air_jump := none, in_air := none,
        hook_x := none, hook_y := none, time := none,
        map_name := some "ctf1", use_player_api := none }).map =
      "map/maps/ctf1.twmap" ∧
    Client.render Client.new []
      { skin_name := "default", player_name := none, zoom := none,
        x := some (.fin 10), y := some (.fin 20), body := none, feet := none,
        dir_x := none, dir_y := none, eyes := none, weapon := none,
        emoticon := none, used_air_jump := none, in_air := none,
        hook_x := none, hook_y := none, time := none,
        map_name := some "ctf1", use_player_api := none } =
    Client.render Client.new []
      { skin_name := "default", player_name := none, zoom := none,
        x := some (.fin 10), y := some (.fin 20), body := none, feet := none,
        dir_x := none, dir_y := none, eyes := none, weapon := none,
        emoticon := none, used_air_jump := none, in_air := none,
        hook_x := none, hook_y := none, time := none,
        map_name := some "dm1", use_player_api := none } := by
  have h := map_name_only_picks_defaults []
    { skin_name := "default", player_name := none, zoom := none,
      x := some (.fin 10), y := some (.fin 20), body := none, feet := none,
      dir_x := none, dir_y := none, eyes := none, weapon := none,
      emoticon := none, used_air_jump := none, in_air := none,
      hook_x := none, hook_y := none, time := none,
      map_name := some "ctf1", use_player_api := none }
    (some "ctf1") (some "dm1") rfl rfl
  exact h

/-! Render serialization (`CLIENT`, lines 88–93, and the per-request
`spawn_blocking` body of `generate_preview`, lines 983–991). Every render
runs inside `CLIENT.blocking_lock()`; the tokio `Mutex` is fair, so
waiters acquire it in the order they queued. We model this as a step
relation: jobs are numbered in submission order, queue up FIFO behind the
lock, and a job may enter the renderer only while no other job is inside. -/

/-- State of the executor: jobs numbered `0, 1, …` in submission order:
`waiting` is the lock's FIFO queue, `inside` the jobs currently executing
inside the renderer (the instrumentation counter is its length), `done`
the completed renders in completion order. -/
structure ExecState where
  nextId : ℕ
  waiting : List ℕ
  inside : List ℕ
  done : List ℕ
deriving DecidableEq

/-- No renders have happened at process start. -/
def ExecState.start : ExecState := ⟨0, [], [], []⟩

/-- One scheduler step: a new submission queues behind the lock; the
head of the queue acquires the lock only when nobody holds it; the lock
holder finishes its render and releases. -/
inductive ExecStep : ExecState → ExecState → Prop where
  | submit (s : ExecState) :
      ExecStep s ⟨s.nextId + 1, s.waiting ++ [s.nextId], s.inside, s.done⟩
  | acquire (s : ExecState) (j : ℕ) (rest : List ℕ)
      (hw : s.waiting = j :: rest) (hfree : s.inside = []) :
      ExecStep s ⟨s.nextId, rest, [j], s.done⟩
  | finish (s : ExecState) (j : ℕ) (rest : List ℕ)
      (hin : s.inside = j :: rest) :
      ExecStep s ⟨s.nextId, s.waiting, rest, s.done ++ [j]⟩

/-- States the executor can actually be in. -/
inductive ExecReachable : ExecState → Prop where
  | start : ExecReachable ExecState.start
  | step {s t : ExecState} : ExecReachable s → ExecStep s t → ExecReachable t

/-- C1: in every reachable executor state at most one job is inside the
renderer (the instrumentation counter never exceeds 1), and
`done ++ inside ++ waiting` is exactly the submission order `0, …, n-1` —
so jobs pass through the renderer strictly one at a time in FIFO
submission order. -/
theorem renders_serialized_fifo (s : ExecState) (hs : ExecReachable s) :
    s.inside.length ≤ 1 ∧
    s.done ++ s.inside ++ s.waiting = List.range s.nextId := by
  induction hs with
  | start => exact ⟨by decide, by decide⟩
  | step hr hstep ih =>
    obtain ⟨ih1, ih2⟩ := ih
    cases hstep with
    | submit =>
      refine ⟨ih1, ?_⟩
      simp only [List.range_succ, ← ih2, List.append_assoc]
    | acquire j rest hw hfree =>
      refine ⟨by simp, ?_⟩
      rw [hw, hfree] at ih2
      simpa using ih2
    | finish j rest hin =>
      have hrest : rest = [] := by
        rw [hin] at ih1
        simpa using ih1
      subst hrest
      refine ⟨by simp, ?_⟩
      rw [hin] at ih2
      simp only [List.append_nil]
      simpa [List.append_assoc] using ih2

/-- Witness for `renders_serialized_fifo`: the reachable state after two
submissions and the first acquisition — job 0 inside the renderer, job 1
queued. -/
theorem renders_serialized_fifo_witness :
    (⟨2, [1], [0], []⟩ : ExecState).inside.length ≤ 1 ∧
    (⟨2, [1], [0], []⟩ : ExecState).done ++
      (⟨2, [1], [0], []⟩ : ExecState).inside ++
      (⟨2, [1], [0], []⟩ : ExecState).waiting =
      List.range (⟨2, [1], [0], []⟩ : ExecState).nextId :=
  renders_serialized_fifo ⟨2, [1], [0], []⟩
    (.step (.step (.step .start (.submit _)) (.submit _))
      (.acquire _ 0 [1] rfl rfl))

end DdPgWeb
